import Mathlib

/-
  Verification development for the PostureCheck client core
  (src/src/public/app.js).

  The embedding follows the source file:
  * camera-angle profiles and feature metric definitions,
  * the feature-extraction functions with their low-visibility guards,
  * the training store and the centroid classifier (retrainModel,
    captureSample, undoLastSample, clearAllSamples, applyConfig,
    importConfig, updateCameraAngleUI),
  * the classification score (classifyPosture / vectorDist),
  * the alert state machine (handleAlerts) and the alert dispatcher
    channels relevant to the title flash (fireAlert / hideAlert /
    startTitleFlash / stopTitleFlash with the 5 s auto-hide timeout).

  Numeric conventions: JavaScript numbers appearing in exact-arithmetic
  state (feature vectors, sample stores, timestamps) are modelled as ℚ
  and ℤ; the geometric feature functions and the classification score,
  which use Math.sqrt / Math.atan2, are modelled over ℝ with
  Real.sqrt / arctan.
-/

namespace PostureCheck

-- ══════════════ Camera Angle Profiles (app.js 102-153) ══════════════

/-- Training label of a sample: the string "good" or "bad" in the source. -/
inductive Label where
  | good
  | bad
deriving DecidableEq

/-- The five canonical camera angles
("front" | "front-left" | "front-right" | "side-left" | "side-right"). -/
inductive Angle where
  | front
  | frontLeft
  | frontRight
  | sideLeft
  | sideRight
deriving DecidableEq

/-- The six metric kinds implemented in FEATURE_FNS (app.js 178-263). -/
inductive MetricKind where
  | shoulderTilt
  | headForwardZ
  | lateralLean
  | headDrop
  | spineAngle
  | neckAngle
deriving DecidableEq

/-- One entry of a profile's metrics table: { name, fn, weight }. -/
structure MetricDef where
  name : String
  fn : MetricKind
  weight : ℚ
deriving DecidableEq

/-- One angle profile: { label, metrics, postureIds }. -/
structure Profile where
  label : String
  metrics : List MetricDef
  postureIds : List ℕ
deriving DecidableEq

/-- The static ANGLE_PROFILES table (app.js 102-153). -/
def ANGLE_PROFILES : Angle → Profile
  | Angle.front =>
    { label := "Front-facing"
      metrics :=
        [ { name := "Shoulder Tilt", fn := MetricKind.shoulderTilt, weight := 1.0 }
        , { name := "Head Forward", fn := MetricKind.headForwardZ, weight := 0.6 }
        , { name := "Lateral Lean", fn := MetricKind.lateralLean, weight := 1.0 }
        , { name := "Head Drop", fn := MetricKind.headDrop, weight := 0.8 } ]
      postureIds := [0, 7, 8, 11, 12] }
  | Angle.frontLeft =>
    { label := "45° from left"
      metrics :=
        [ { name := "Shoulder Tilt", fn := MetricKind.shoulderTilt, weight := 0.7 }
        , { name := "Head Forward", fn := MetricKind.headForwardZ, weight := 1.0 }
        , { name := "Spine Angle", fn := MetricKind.spineAngle, weight := 1.0 }
        , { name := "Head Drop", fn := MetricKind.headDrop, weight := 0.8 } ]
      postureIds := [0, 7, 11, 12, 23, 24] }
  | Angle.frontRight =>
    { label := "45° from right"
      metrics :=
        [ { name := "Shoulder Tilt", fn := MetricKind.shoulderTilt, weight := 0.7 }
        , { name := "Head Forward", fn := MetricKind.headForwardZ, weight := 1.0 }
        , { name := "Spine Angle", fn := MetricKind.spineAngle, weight := 1.0 }
        , { name := "Head Drop", fn := MetricKind.headDrop, weight := 0.8 } ]
      postureIds := [0, 8, 11, 12, 23, 24] }
  | Angle.sideLeft =>
    { label := "Left side view"
      metrics :=
        [ { name := "Head Forward", fn := MetricKind.headForwardZ, weight := 1.0 }
        , { name := "Spine Angle", fn := MetricKind.spineAngle, weight := 1.0 }
        , { name := "Head Drop", fn := MetricKind.headDrop, weight := 0.9 }
        , { name := "Neck Angle", fn := MetricKind.neckAngle, weight := 0.8 } ]
      postureIds := [0, 7, 11, 23] }
  | Angle.sideRight =>
    { label := "Right side view"
      metrics :=
        [ { name := "Head Forward", fn := MetricKind.headForwardZ, weight := 1.0 }
        , { name := "Spine Angle", fn := MetricKind.spineAngle, weight := 1.0 }
        , { name := "Head Drop", fn := MetricKind.headDrop, weight := 0.9 }
        , { name := "Neck Angle", fn := MetricKind.neckAngle, weight := 0.8 } ]
      postureIds := [0, 8, 12, 24] }

/-- numFeatures = profile.metrics.length (app.js 426). -/
def numFeatures (a : Angle) : ℕ := (ANGLE_PROFILES a).metrics.length

theorem numFeatures_eq_four (a : Angle) : numFeatures a = 4 := by
  cases a <;> rfl

-- ══════════════ Training store and centroid model (app.js 424-500) ══════════════

/-- One training sample: { label, angle, features, timestamp } (app.js 466-471). -/
structure Sample where
  label : Label
  angle : Angle
  features : List ℚ
  timestamp : ℤ
deriving DecidableEq

/-- The trained model: { goodCentroid, badCentroid } (app.js 451). -/
structure Model where
  goodCentroid : List ℚ
  badCentroid : List ℚ
deriving DecidableEq

/-- trainingSamples.filter(s => s.label === "good" && s.angle === cameraAngle)
(app.js 429). -/
def goodSamplesFor (a : Angle) (samples : List Sample) : List Sample :=
  samples.filter fun smp => decide (smp.label = Label.good ∧ smp.angle = a)

/-- trainingSamples.filter(s => s.label === "bad" && s.angle === cameraAngle)
(app.js 430). -/
def badSamplesFor (a : Angle) (samples : List Sample) : List Sample :=
  samples.filter fun smp => decide (smp.label = Label.bad ∧ smp.angle = a)

/-- One step of the accumulation loop
"for (let i = 0; i < numFeatures; i++) centroid[i] += s.features[i]"
(app.js 441-447): the accumulator keeps its length, and each slot receives
the sample's feature at the same index.  An out-of-range index contributes 0
(the accumulator has exactly numFeatures slots; stored vectors always have
numFeatures entries in the running program). -/
def accumStep : List ℚ → List ℚ → List ℚ
  | [], _ => []
  | a :: acc, fs => (a + fs.headD 0) :: accumStep acc fs.tail

/-- The summed feature vectors of a class, starting from
"new Array(numFeatures).fill(0)" (app.js 438-447). -/
def sumFeatures (n : ℕ) (samps : List Sample) : List ℚ :=
  samps.foldl (fun acc smp => accumStep acc smp.features) (List.replicate n 0)

/-- "for (let i = 0; i < numFeatures; i++) centroid[i] /= samples.length"
(app.js 444, 449). -/
def centroidOf (n : ℕ) (samps : List Sample) : List ℚ :=
  (sumFeatures n samps).map fun x => x / (samps.length : ℚ)

/-- retrainModel (app.js 424-457): filter the store to the active angle,
split by label, clear the model when either class has fewer than 3 samples,
otherwise build the two per-dimension mean centroids. -/
def retrainModel (a : Angle) (samples : List Sample) : Option Model :=
  let good := goodSamplesFor a samples
  let bad := badSamplesFor a samples
  if good.length < 3 ∨ bad.length < 3 then none
  else some { goodCentroid := centroidOf (numFeatures a) good
              badCentroid := centroidOf (numFeatures a) bad }

-- ══════════════ Session state (app.js 46-82) ══════════════

/-- The mutable client session state relevant to the classifier core:
cameraAngle, trainingSamples, trainedModel, currentFeatures,
smoothedFeatures, plus the persisted configuration fields (selectedSound,
the three slider values as DOM strings, and the two checkbox booleans). -/
structure AppState where
  cameraAngle : Angle
  trainingSamples : List Sample
  trainedModel : Option Model
  currentFeatures : Option (List ℚ)
  smoothedFeatures : Option (List ℚ)
  selectedSound : String
  threshScore : String
  alertDelay : String
  alertCooldown : String
  soundEnabled : Bool
  notifyEnabled : Bool
deriving DecidableEq

/-- SMOOTH = 0.3 (app.js 57). -/
def SMOOTH : ℚ := 0.3

/-- The smoothing step of the detection loop (app.js 367-374): initialize
the smoothed vector on the first frame, otherwise blend with factor SMOOTH,
then set currentFeatures to the smoothed vector.  The extracted (weighted)
feature vector of the frame is taken as input. -/
def processFrame (features : List ℚ) (s : AppState) : AppState :=
  let sm := match s.smoothedFeatures with
    | none => features
    | some old => List.zipWith (fun o f => o * (1 - SMOOTH) + f * SMOOTH) old features
  { s with smoothedFeatures := some sm, currentFeatures := some sm }

/-- captureSample (app.js 463-484): no-op without a current feature vector,
otherwise push a snapshot sample tagged with the active angle and retrain. -/
def captureSample (label : Label) (now : ℤ) (s : AppState) : AppState :=
  match s.currentFeatures with
  | none => s
  | some v =>
    let samples := s.trainingSamples ++
      [{ label := label, angle := s.cameraAngle, features := v, timestamp := now }]
    { s with trainingSamples := samples
             trainedModel := retrainModel s.cameraAngle samples }

/-- undoLastSample (app.js 486-492): no-op on an empty store, otherwise pop
the most recent sample and retrain. -/
def undoLastSample (s : AppState) : AppState :=
  if s.trainingSamples = [] then s
  else
    let samples := s.trainingSamples.dropLast
    { s with trainingSamples := samples
             trainedModel := retrainModel s.cameraAngle samples }

/-- clearAllSamples (app.js 494-500), after the confirm() boundary check:
empty the store and null the model directly. -/
def clearAllSamples (s : AppState) : AppState :=
  { s with trainingSamples := [], trainedModel := none }

/-- The camera-angle click handler plus updateCameraAngleUI
(app.js 677-687, 1215-1221): set the angle, discard the smoothed vector
and retrain for the new angle.  Stored samples are untouched. -/
def setCameraAngle (a : Angle) (s : AppState) : AppState :=
  { s with cameraAngle := a
           smoothedFeatures := none
           trainedModel := retrainModel a s.trainingSamples }

-- ══════════════ Config import/export (app.js 1123-1194) ══════════════

/-- The keys of the SOUND_BITES catalog (app.js 781-981). -/
def SOUND_KEYS : List String :=
  ["chime", "airhorn", "bruh", "vine_boom", "sad_trombone",
   "oof", "metal_gear", "navi_hey", "fbi_open_up", "dramatic"]

/-- The fixed export/import type tag (app.js 1148, 1182). -/
def CONFIG_TYPE_TAG : String := "PostureCheck Config"

/-- A parsed configuration payload.  A field holds none when absent from the
JSON object (or, for strings, when JavaScript-falsy); typeTag models the
payload's top-level type-tag field checked by importConfig. -/
structure Config where
  typeTag : Option String
  cameraAngle : Option Angle
  trainingSamples : Option (List Sample)
  selectedSound : Option String
  threshScore : Option String
  alertDelay : Option String
  alertCooldown : Option String
  sound : Option Bool
  notify : Option Bool

/-- applyConfig (app.js 1123-1144): overwrite each present field, keep the
rest, and end with the updateCameraAngleUI call, which discards the smoothed
vector and recomputes the model for the (possibly new) angle and samples. -/
def applyConfig (c : Config) (s : AppState) : AppState :=
  let a := c.cameraAngle.getD s.cameraAngle
  let samples := c.trainingSamples.getD s.trainingSamples
  { s with
    cameraAngle := a
    trainingSamples := samples
    selectedSound :=
      match c.selectedSound with
      | some snd => if snd ∈ SOUND_KEYS then snd else s.selectedSound
      | none => s.selectedSound
    threshScore := c.threshScore.getD s.threshScore
    alertDelay := c.alertDelay.getD s.alertDelay
    alertCooldown := c.alertCooldown.getD s.alertCooldown
    soundEnabled := c.sound.getD s.soundEnabled
    notifyEnabled := c.notify.getD s.notifyEnabled
    smoothedFeatures := none
    trainedModel := retrainModel a samples }

/-- Outcome of reading the import textarea: empty text, text that
JSON.parse rejects, or a parsed payload. -/
inductive ImportInput where
  | emptyText
  | badJson
  | parsed (c : Config)

def STATUS_BAD : String := "bad"

def STATUS_GOOD : String := "good"

/-- importConfig (app.js 1172-1194): returns the next state together with
the (message, kind) pair passed to showConfigStatus.  Empty text and
JSON.parse failures leave the state untouched ("bad" status); a payload
whose type tag is not CONFIG_TYPE_TAG is rejected untouched; only a
correctly tagged payload is applied. -/
def importConfig (input : ImportInput) (s : AppState) : AppState × String × String :=
  match input with
  | ImportInput.emptyText =>
    (s, "Paste a config JSON into the text box first", STATUS_BAD)
  | ImportInput.badJson =>
    (s, "✗ Invalid JSON — check the pasted text", STATUS_BAD)
  | ImportInput.parsed c =>
    if c.typeTag ≠ some CONFIG_TYPE_TAG then
      (s, "✗ Invalid config format", STATUS_BAD)
    else
      (applyConfig c s,
       "✓ Imported! " ++ toString (c.trainingSamples.getD []).length ++ " samples loaded",
       STATUS_GOOD)

/-- The user-triggered operations that mutate the training store or switch
the viewpoint (the triggers of retrainModel). -/
inductive Op where
  | capture (label : Label) (now : ℤ)
  | undo
  | clear
  | switchAngle (a : Angle)
  | importCfg (input : ImportInput)

/-- The state transition of each operation. -/
def applyOp : Op → AppState → AppState
  | Op.capture l t, s => captureSample l t s
  | Op.undo, s => undoLastSample s
  | Op.clear, s => clearAllSamples s
  | Op.switchAngle a, s => setCameraAngle a s
  | Op.importCfg inp, s => (importConfig inp s).1

-- ══════════════ Feature extraction (app.js 178-280) ══════════════

/-- One pose keypoint: normalized 2D or world 3D position plus visibility.
MediaPipe delivers finite floating-point values; they are modelled as ℚ so
that the visibility guards stay decidable. -/
structure Keypoint where
  x : ℚ
  y : ℚ
  z : ℚ
  visibility : ℚ
deriving DecidableEq

/-- A landmark frame, indexed by the fixed anatomical numbering (0..32). -/
def Frame : Type := ℕ → Keypoint

noncomputable section

/-- JavaScript Math.atan2. -/
def atan2 (y x : ℝ) : ℝ :=
  if 0 < x then Real.arctan (y / x)
  else if x < 0 then
    (if 0 ≤ y then Real.arctan (y / x) + Real.pi else Real.arctan (y / x) - Real.pi)
  else
    (if 0 < y then Real.pi / 2 else if y < 0 then -(Real.pi / 2) else 0)

/-- The JavaScript idiom "expr || d" on numbers (for finite values):
keep expr unless it is 0, in which case use the fallback d. -/
def jsOr (x d : ℝ) : ℝ := if x = 0 then d else x

/-- Radians-to-degrees factor (180 / Math.PI). -/
def degPerRad : ℝ := 180 / Real.pi

/-- FEATURE_FNS.shoulderTilt (app.js 181-187). -/
def shoulderTilt (norm : Frame) (world : Frame) : ℝ :=
  if (norm 11).visibility < 0.4 ∨ (norm 12).visibility < 0.4 then 0
  else
    atan2 (((norm 12).y : ℝ) - ((norm 11).y : ℝ))
      (jsOr |((norm 12).x : ℝ) - ((norm 11).x : ℝ)| 0.001) * degPerRad

/-- FEATURE_FNS.headForwardZ (app.js 192-198). -/
def headForwardZ (norm : Frame) (world : Frame) : ℝ :=
  if (norm 0).visibility < 0.4 ∨ (norm 11).visibility < 0.4 ∨
      (norm 12).visibility < 0.4 then 0
  else ((world 0).z : ℝ) - (((world 11).z : ℝ) + ((world 12).z : ℝ)) / 2

/-- FEATURE_FNS.lateralLean (app.js 202-210). -/
def lateralLean (norm : Frame) (world : Frame) : ℝ :=
  if (norm 0).visibility < 0.4 ∨ (norm 11).visibility < 0.4 ∨
      (norm 12).visibility < 0.4 then 0
  else
    (((norm 0).x : ℝ) - (((norm 11).x : ℝ) + ((norm 12).x : ℝ)) / 2) /
      jsOr |((norm 12).x : ℝ) - ((norm 11).x : ℝ)| 0.001

/-- FEATURE_FNS.headDrop (app.js 214-220). -/
def headDrop (norm : Frame) (world : Frame) : ℝ :=
  if (norm 0).visibility < 0.4 ∨ (norm 11).visibility < 0.4 ∨
      (norm 12).visibility < 0.4 then 0
  else (((norm 11).y : ℝ) + ((norm 12).y : ℝ)) / 2 - ((norm 0).y : ℝ)

/-- FEATURE_FNS.spineAngle (app.js 224-245): zero when the shoulders have
visibility below 0.3; head-to-shoulder proxy when the hips have visibility
below 0.2; otherwise the hip-to-shoulder angle from vertical. -/
def spineAngle (norm : Frame) (world : Frame) : ℝ :=
  if (norm 11).visibility < 0.3 ∨ (norm 12).visibility < 0.3 then 0
  else if (norm 23).visibility < 0.2 ∨ (norm 24).visibility < 0.2 then
    atan2 (((world 0).x : ℝ) - (((world 11).x : ℝ) + ((world 12).x : ℝ)) / 2)
      (jsOr |((world 0).y : ℝ) - (((world 11).y : ℝ) + ((world 12).y : ℝ)) / 2| 0.001)
      * degPerRad
  else
    atan2 ((((world 11).x : ℝ) + ((world 12).x : ℝ)) / 2 -
        (((world 23).x : ℝ) + ((world 24).x : ℝ)) / 2)
      (jsOr ((((world 23).y : ℝ) + ((world 24).y : ℝ)) / 2 -
        (((world 11).y : ℝ) + ((world 12).y : ℝ)) / 2) 0.001) * degPerRad

/-- FEATURE_FNS.neckAngle (app.js 249-262). -/
def neckAngle (norm : Frame) (world : Frame) : ℝ :=
  if (norm 0).visibility < 0.4 ∨ (norm 11).visibility < 0.3 ∨
      (norm 12).visibility < 0.3 then 0
  else
    atan2 (Real.sqrt ((((world 0).x : ℝ) - (((world 11).x : ℝ) + ((world 12).x : ℝ)) / 2) ^ 2 +
        (((world 0).z : ℝ) - (((world 11).z : ℝ) + ((world 12).z : ℝ)) / 2) ^ 2))
      (jsOr |((world 0).y : ℝ) - (((world 11).y : ℝ) + ((world 12).y : ℝ)) / 2| 0.001)
      * degPerRad

/-- The FEATURE_FNS string-keyed dispatch table (app.js 178-263). -/
def evalMetric : MetricKind → Frame → Frame → ℝ
  | MetricKind.shoulderTilt, n, w => shoulderTilt n w
  | MetricKind.headForwardZ, n, w => headForwardZ n w
  | MetricKind.lateralLean, n, w => lateralLean n w
  | MetricKind.headDrop, n, w => headDrop n w
  | MetricKind.spineAngle, n, w => spineAngle n w
  | MetricKind.neckAngle, n, w => neckAngle n w

/-- extractFeatures (app.js 269-275): weighted metric values for the
active profile. -/
def extractFeatures (a : Angle) (norm : Frame) (world : Frame) : List ℝ :=
  (ANGLE_PROFILES a).metrics.map fun m => evalMetric m.fn norm world * (m.weight : ℝ)

-- ══════════════ Classification (app.js 400-422) ══════════════

/-- The squared-difference accumulation loop of vectorDist (app.js 416-420):
"for i: d = a[i] - b[i]; sum += d * d".  The loop runs over matching indices
(feature vectors and centroids always share the active profile's length). -/
def sqDiffSum : List ℝ → List ℝ → ℝ
  | x :: xs, y :: ys => (x - y) * (x - y) + sqDiffSum xs ys
  | _, _ => 0

/-- vectorDist (app.js 415-422): Euclidean distance. -/
def vectorDist (a b : List ℝ) : ℝ := Real.sqrt (sqDiffSum a b)

/-- A trained model with real-valued centroids, as consumed by
classifyPosture. -/
structure RModel where
  goodCentroid : List ℝ
  badCentroid : List ℝ

/-- classifyPosture (app.js 400-413): null without a model; 0.5 when the
two centroid distances sum to less than 0.0001; otherwise distBad / total. -/
def classifyPosture (model : Option RModel) (features : List ℝ) : Option ℝ :=
  match model with
  | none => none
  | some m =>
    let distGood := vectorDist features m.goodCentroid
    let distBad := vectorDist features m.badCentroid
    let totalDist := distGood + distBad
    if totalDist < 0.0001 then some 0.5
    else some (distBad / totalDist)

end

/-- Interpret a stored rational feature vector as real numbers. -/
def castVec (v : List ℚ) : List ℝ := v.map fun x => (x : ℝ)

/-- Interpret a stored rational model as a real-valued model. -/
def castModel (m : Model) : RModel :=
  { goodCentroid := castVec m.goodCentroid, badCentroid := castVec m.badCentroid }

-- ══════════════ Alert state machine (app.js 64-66, 710-728) ══════════════

/-- The alert timing state: badPostureSince (null or a Date.now()
timestamp) and lastAlertTime (initially 0). -/
structure AlertState where
  badSince : Option ℤ
  lastFired : ℤ
deriving DecidableEq

/-- The "!badPostureSince" test of app.js 718: in JavaScript both null and
the number 0 are falsy. -/
def badSinceUnset : Option ℤ → Bool
  | none => true
  | some t => t == 0

/-- handleAlerts (app.js 710-728) as a transition on AlertState, also
reporting whether fireAlert ran this frame.  delay and cooldown are the
slider values in milliseconds; now is Date.now(). -/
def handleAlerts (isGood : Option Bool) (now delay cooldown : ℤ)
    (st : AlertState) : AlertState × Bool :=
  match isGood with
  | none => (st, false)
  | some false =>
    if badSinceUnset st.badSince then
      ({ st with badSince := some now }, false)
    else if delay ≤ now - st.badSince.getD 0 ∧ cooldown ≤ now - st.lastFired then
      ({ st with lastFired := now }, true)
    else (st, false)
  | some true => ({ st with badSince := none }, false)

/-- A run of handleAlerts in which every frame classifies as bad: frame k
happens at time ts k, starting from badSince = null and
lastFired = lf0. -/
def badRun (delay cooldown lf0 : ℤ) (ts : ℕ → ℤ) : ℕ → AlertState × Bool
  | 0 => handleAlerts (some false) (ts 0) delay cooldown { badSince := none, lastFired := lf0 }
  | k + 1 => handleAlerts (some false) (ts (k + 1)) delay cooldown
      (badRun delay cooldown lf0 ts k).1

-- ══════════════ Alert dispatcher: overlay and title flash ══════════════
-- (app.js 730-757, 1068-1083)

/-- The dispatcher-visible UI state: whether the visual alert overlay is
shown, whether the title-flash interval is live (titleFlashInterval not
null), and the deadlines of every scheduled setTimeout(hideAlert, 5000)
that has not yet run.  The source never calls clearTimeout, so each fire
adds a timeout and all earlier ones stay pending. -/
structure UiState where
  overlayVisible : Bool
  flashActive : Bool
  pendingHides : List ℤ
deriving DecidableEq

/-- startTitleFlash (app.js 1068-1075): idempotent start of the interval. -/
def startTitleFlash (u : UiState) : UiState :=
  if u.flashActive then u else { u with flashActive := true }

/-- stopTitleFlash (app.js 1077-1083): stop the interval and restore the
default title; no-op when no interval is live. -/
def stopTitleFlash (u : UiState) : UiState :=
  if u.flashActive then { u with flashActive := false } else u

/-- hideAlert (app.js 754-757): hide the overlay and stop the title flash.
Called both on good-posture frames (the clear event) and by the 5 s
auto-dismiss timeout. -/
def hideAlert (u : UiState) : UiState :=
  stopTitleFlash { u with overlayVisible := false }

/-- fireAlert (app.js 730-752), restricted to the overlay and title-flash
channels: show the overlay, start the title flash, and schedule a fresh
setTimeout(hideAlert, 5000).  Earlier pending timeouts are not cancelled
(the source has no clearTimeout), so the new deadline is appended to the
pending ones.  (Sound and notification dispatch have no effect on this
state.) -/
def fireAlert (now : ℤ) (u : UiState) : UiState :=
  startTitleFlash { u with overlayVisible := true
                           pendingHides := u.pendingHides ++ [now + 5000] }

/-- The expiry of a pending auto-dismiss timeout: at a scheduled moment
one pending timeout runs hideAlert and is consumed; at any other moment
nothing happens. -/
def autoHideTick (now : ℤ) (u : UiState) : UiState :=
  if now ∈ u.pendingHides then hideAlert { u with pendingHides := u.pendingHides.erase now }
  else u

-- ══════════════ Lemmas about the centroid computation ══════════════

theorem accumStep_length (acc : List ℚ) :
    ∀ fs : List ℚ, (accumStep acc fs).length = acc.length := by
  induction acc with
  | nil => intro fs; rfl
  | cons a acc ih => intro fs; simp [accumStep, ih]

theorem headD_eq_getD_zero (fs : List ℚ) : fs.headD 0 = fs.getD 0 0 := by
  cases fs <;> rfl

theorem tail_getD (fs : List ℚ) (j : ℕ) : fs.tail.getD j 0 = fs.getD (j + 1) 0 := by
  cases fs <;> rfl

theorem accumStep_getD (acc : List ℚ) :
    ∀ (fs : List ℚ) (i : ℕ), i < acc.length →
      (accumStep acc fs).getD i 0 = acc.getD i 0 + fs.getD i 0 := by
  induction acc with
  | nil => intro fs i hi; simp at hi
  | cons a acc ih =>
    intro fs i hi
    cases i with
    | zero => cases fs <;> rfl
    | succ j =>
      have hj : j < acc.length := by simpa using hi
      show (accumStep acc fs.tail).getD j 0 = acc.getD j 0 + fs.getD (j + 1) 0
      rw [ih fs.tail j hj, tail_getD]

theorem foldl_accum_length (samps : List Sample) :
    ∀ init : List ℚ,
      (samps.foldl (fun acc smp => accumStep acc smp.features) init).length
        = init.length := by
  induction samps with
  | nil => intro init; rfl
  | cons smp rest ih =>
    intro init
    rw [List.foldl_cons, ih, accumStep_length]

theorem foldl_accum_getD (samps : List Sample) :
    ∀ (init : List ℚ) (i : ℕ), i < init.length →
      (samps.foldl (fun acc smp => accumStep acc smp.features) init).getD i 0
        = init.getD i 0 + (samps.map fun smp => smp.features.getD i 0).sum := by
  induction samps with
  | nil => intro init i _; simp
  | cons smp rest ih =>
    intro init i hi
    have hi2 : i < (accumStep init smp.features).length := by
      rw [accumStep_length]; exact hi
    rw [List.foldl_cons, ih _ i hi2, accumStep_getD init smp.features i hi]
    simp [add_assoc]

theorem getD_replicate_zero (n i : ℕ) : (List.replicate n (0 : ℚ)).getD i 0 = 0 := by
  induction n generalizing i with
  | zero => rfl
  | succ m ih => cases i <;> simp [List.replicate, ih]

theorem sumFeatures_length (n : ℕ) (samps : List Sample) :
    (sumFeatures n samps).length = n := by
  unfold sumFeatures
  rw [foldl_accum_length]
  exact List.length_replicate n 0

theorem sumFeatures_getD (n : ℕ) (samps : List Sample) (i : ℕ) (hi : i < n) :
    (sumFeatures n samps).getD i 0
      = (samps.map fun smp => smp.features.getD i 0).sum := by
  unfold sumFeatures
  rw [foldl_accum_getD samps _ i (by simpa using hi), getD_replicate_zero]
  simp

theorem getD_map_div (l : List ℚ) (c : ℚ) :
    ∀ i : ℕ, (l.map fun x => x / c).getD i 0 = l.getD i 0 / c := by
  induction l with
  | nil => intro i; simp
  | cons a l ih =>
    intro i
    cases i with
    | zero => rfl
    | succ j => exact ih j

theorem centroidOf_length (n : ℕ) (samps : List Sample) :
    (centroidOf n samps).length = n := by
  unfold centroidOf
  rw [List.length_map, sumFeatures_length]

/-- Each slot of a centroid is the arithmetic mean of that feature
dimension over the class's samples. -/
theorem centroidOf_getD (n : ℕ) (samps : List Sample) (i : ℕ) (hi : i < n) :
    (centroidOf n samps).getD i 0
      = (samps.map fun smp => smp.features.getD i 0).sum / (samps.length : ℚ) := by
  unfold centroidOf
  rw [getD_map_div, sumFeatures_getD n samps i hi]

-- ══════════════ The model invariant (claim C1) ══════════════

/-- The relation retrainModel establishes between the active angle, the
sample store and the model: the model exists exactly when the filtered
store holds at least 3 good and 3 bad samples, and in that case each
centroid dimension is the per-dimension arithmetic mean of its class. -/
def ModelInv (a : Angle) (samples : List Sample) (mdl : Option Model) : Prop :=
  (mdl ≠ none ↔
    3 ≤ (goodSamplesFor a samples).length ∧ 3 ≤ (badSamplesFor a samples).length) ∧
  ∀ m, mdl = some m →
    m.goodCentroid.length = numFeatures a ∧
    m.badCentroid.length = numFeatures a ∧
    (∀ i, i < numFeatures a →
      m.goodCentroid.getD i 0 =
        ((goodSamplesFor a samples).map fun smp => smp.features.getD i 0).sum
          / ((goodSamplesFor a samples).length : ℚ)) ∧
    (∀ i, i < numFeatures a →
      m.badCentroid.getD i 0 =
        ((badSamplesFor a samples).map fun smp => smp.features.getD i 0).sum
          / ((badSamplesFor a samples).length : ℚ))

/-- retrainModel always establishes ModelInv. -/
theorem retrainModel_inv (a : Angle) (samples : List Sample) :
    ModelInv a samples (retrainModel a samples) := by
  unfold ModelInv retrainModel
  by_cases h : (goodSamplesFor a samples).length < 3 ∨ (badSamplesFor a samples).length < 3
  · rw [if_pos h]
    constructor
    · constructor
      · intro hne; exact absurd rfl hne
      · intro ⟨h1, h2⟩; omega
    · intro m hm; exact Option.noConfusion hm
  · rw [if_neg h]
    push_neg at h
    constructor
    · constructor
      · intro _; exact ⟨h.1, h.2⟩
      · intro _; exact Option.some_ne_none _
    · intro m hm
      injection hm with hm
      subst hm
      refine ⟨centroidOf_length _ _, centroidOf_length _ _, ?_, ?_⟩
      · intro i hi; exact centroidOf_getD _ _ i hi
      · intro i hi; exact centroidOf_getD _ _ i hi

/-- The invariant at the session-state level. -/
def AppInv (s : AppState) : Prop :=
  ModelInv s.cameraAngle s.trainingSamples s.trainedModel

theorem ModelInv_none_empty (a : Angle) : ModelInv a [] none := by
  unfold ModelInv
  constructor
  · simp [goodSamplesFor]
  · intro m hm; exact Option.noConfusion hm

/-- Claim C1: after every training-store mutation (capture, undo, clear,
config import) and every viewpoint switch, the model is non-null iff at
least 3 good and 3 bad samples exist for the active viewpoint; when
non-null each centroid dimension is the arithmetic mean of that dimension
over the same-viewpoint samples of its class; and when null,
classifyPosture reports unknown (null). -/
theorem trainedModel_invariant (op : Op) (s : AppState) (h : AppInv s) :
    AppInv (applyOp op s) ∧
    ∀ v, (applyOp op s).trainedModel = none →
      classifyPosture (Option.map castModel (applyOp op s).trainedModel) v = none := by
  refine ⟨?_, fun v h0 => by rw [h0]; rfl⟩
  cases op with
  | capture l t =>
    show AppInv (captureSample l t s)
    unfold captureSample
    cases hcf : s.currentFeatures with
    | none => exact h
    | some v => exact retrainModel_inv _ _
  | undo =>
    show AppInv (undoLastSample s)
    unfold undoLastSample
    split
    · exact h
    · exact retrainModel_inv _ _
  | clear => exact ModelInv_none_empty _
  | switchAngle a => exact retrainModel_inv _ _
  | importCfg inp =>
    cases inp with
    | emptyText => exact h
    | badJson => exact h
    | parsed c =>
      show AppInv (importConfig (ImportInput.parsed c) s).1
      simp only [importConfig]
      split
      · exact h
      · exact retrainModel_inv _ _

/-- A concrete starting state used by the witnesses. -/
def witnessState : AppState :=
  { cameraAngle := Angle.front
    trainingSamples := []
    trainedModel := none
    currentFeatures := some [1, 2, 3, 4]
    smoothedFeatures := none
    selectedSound := "chime"
    threshScore := "0.5"
    alertDelay := "5"
    alertCooldown := "30"
    soundEnabled := true
    notifyEnabled := true }

theorem trainedModel_invariant_witness :
    AppInv (applyOp (Op.capture Label.good 0) witnessState) :=
  (trainedModel_invariant (Op.capture Label.good 0) witnessState
    (ModelInv_none_empty Angle.front)).1

-- ══════════════ Claim C6: viewpoint switch ══════════════

theorem filter_and_angle (p : Sample → Prop) [DecidablePred p] (a : Angle)
    (samples : List Sample) :
    (samples.filter fun smp => decide (smp.angle = a)).filter
        (fun smp => decide (p smp ∧ smp.angle = a))
      = samples.filter fun smp => decide (p smp ∧ smp.angle = a) := by
  rw [List.filter_filter]
  apply List.filter_congr
  intro x _
  by_cases hp : p x <;> by_cases ha : x.angle = a <;> simp [hp, ha]

/-- Claim C6: switching the active viewpoint leaves the stored samples
unchanged, resets the smoother to uninitialized, and recomputes the model
from (exactly) the samples tagged with the new viewpoint. -/
theorem switch_angle_effect (a : Angle) (s : AppState) :
    (setCameraAngle a s).trainingSamples = s.trainingSamples ∧
    (setCameraAngle a s).smoothedFeatures = none ∧
    (setCameraAngle a s).trainedModel = retrainModel a s.trainingSamples ∧
    retrainModel a s.trainingSamples =
      retrainModel a (s.trainingSamples.filter fun smp => decide (smp.angle = a)) := by
  refine ⟨rfl, rfl, rfl, ?_⟩
  unfold retrainModel goodSamplesFor badSamplesFor
  rw [filter_and_angle (fun smp => smp.label = Label.good) a s.trainingSamples,
    filter_and_angle (fun smp => smp.label = Label.bad) a s.trainingSamples]

-- ══════════════ Claim C7: capture / undo round trip ══════════════

/-- Claim C7: from any state whose model is the one retrainModel derives
from its store (every state the program reaches) and which has a current
feature vector, capturing a sample and undoing it restores the exact
previous session state, model included. -/
theorem capture_undo_roundtrip (s : AppState) (v : List ℚ) (lbl : Label) (now : ℤ)
    (hcf : s.currentFeatures = some v)
    (hm : s.trainedModel = retrainModel s.cameraAngle s.trainingSamples) :
    undoLastSample (captureSample lbl now s) = s := by
  cases s with
  | mk ca tsamp tm cf sf ss th ad ac se ne =>
    simp only at hcf hm
    subst hcf
    subst hm
    simp [captureSample, undoLastSample, List.dropLast_concat]

theorem capture_undo_roundtrip_witness :
    undoLastSample (captureSample Label.good 0 witnessState) = witnessState :=
  capture_undo_roundtrip witnessState [1, 2, 3, 4] Label.good 0 rfl (by decide)

-- ══════════════ Claim C8: import rejection ══════════════

/-- Claim C8: a payload with a wrong or missing type tag, and unparseable
JSON, leave the whole session state unchanged and report a "bad"
(user-visible failure) status. -/
theorem import_rejects_bad_payload (s : AppState) (c : Config)
    (h : c.typeTag ≠ some CONFIG_TYPE_TAG) :
    (importConfig (ImportInput.parsed c) s).1 = s ∧
    (importConfig (ImportInput.parsed c) s).2.2 = STATUS_BAD ∧
    (importConfig ImportInput.badJson s).1 = s ∧
    (importConfig ImportInput.badJson s).2.2 = STATUS_BAD := by
  simp only [importConfig]
  rw [if_pos h]
  simp

/-- A payload with no type tag at all. -/
def untaggedConfig : Config :=
  { typeTag := none
    cameraAngle := some Angle.sideLeft
    trainingSamples := some []
    selectedSound := some "airhorn"
    threshScore := some "0.7"
    alertDelay := some "10"
    alertCooldown := some "60"
    sound := some false
    notify := some false }

theorem import_rejects_bad_payload_witness :
    (importConfig (ImportInput.parsed untaggedConfig) witnessState).1 = witnessState ∧
    (importConfig (ImportInput.parsed untaggedConfig) witnessState).2.2 = STATUS_BAD :=
  ⟨(import_rejects_bad_payload witnessState untaggedConfig (by decide)).1,
   (import_rejects_bad_payload witnessState untaggedConfig (by decide)).2.1⟩

-- ══════════════ Claim C10: capture after a viewpoint switch ══════════════

/-- Claim C10: a viewpoint switch resets only smoothedFeatures, not
currentFeatures; so after a processed frame followed by a switch, capture
is not a no-op: it appends a sample carrying the pre-switch smoothed
feature vector tagged with the new viewpoint. -/
theorem capture_after_switch (s : AppState) (features : List ℚ) (a : Angle)
    (lbl : Label) (now : ℤ) :
    ∃ v, (processFrame features s).smoothedFeatures = some v ∧
      (setCameraAngle a (processFrame features s)).smoothedFeatures = none ∧
      (setCameraAngle a (processFrame features s)).currentFeatures = some v ∧
      (captureSample lbl now (setCameraAngle a (processFrame features s))).trainingSamples
        = (setCameraAngle a (processFrame features s)).trainingSamples ++
          [{ label := lbl, angle := a, features := v, timestamp := now }] ∧
      (captureSample lbl now (setCameraAngle a (processFrame features s))).trainingSamples
        ≠ (setCameraAngle a (processFrame features s)).trainingSamples := by
  refine ⟨_, rfl, rfl, rfl, rfl, ?_⟩
  have hne : ∀ (l : List Sample) (x : Sample), l ++ [x] ≠ l := by
    intro l x hx
    simpa using congrArg List.length hx
  exact hne _ _

-- ══════════════ Lemmas about the classification score ══════════════

theorem sqDiffSum_nonneg : ∀ a b : List ℝ, 0 ≤ sqDiffSum a b := by
  intro a
  induction a with
  | nil => intro b; cases b <;> simp [sqDiffSum]
  | cons x xs ih =>
    intro b
    cases b with
    | nil => simp [sqDiffSum]
    | cons y ys =>
      show 0 ≤ (x - y) * (x - y) + sqDiffSum xs ys
      exact add_nonneg (mul_self_nonneg _) (ih ys)

theorem sqDiffSum_self : ∀ a : List ℝ, sqDiffSum a a = 0 := by
  intro a
  induction a with
  | nil => rfl
  | cons x xs ih =>
    show (x - x) * (x - x) + sqDiffSum xs xs = 0
    rw [ih, sub_self, mul_zero, add_zero]

theorem sqDiffSum_comm : ∀ a b : List ℝ, sqDiffSum a b = sqDiffSum b a := by
  intro a
  induction a with
  | nil => intro b; cases b <;> rfl
  | cons x xs ih =>
    intro b
    cases b with
    | nil => rfl
    | cons y ys =>
      show (x - y) * (x - y) + sqDiffSum xs ys = (y - x) * (y - x) + sqDiffSum ys xs
      rw [ih ys]; ring_nf

theorem sqDiffSum_eq_zero_iff :
    ∀ a b : List ℝ, a.length = b.length → (sqDiffSum a b = 0 ↔ a = b) := by
  intro a
  induction a with
  | nil =>
    intro b hlen
    cases b with
    | nil => simp [sqDiffSum]
    | cons y ys => simp at hlen
  | cons x xs ih =>
    intro b hlen
    cases b with
    | nil => simp at hlen
    | cons y ys =>
      have hlen2 : xs.length = ys.length := by simpa using hlen
      show (x - y) * (x - y) + sqDiffSum xs ys = 0 ↔ x :: xs = y :: ys
      constructor
      · intro h0
        have h1 : 0 ≤ (x - y) * (x - y) := mul_self_nonneg _
        have h2 : 0 ≤ sqDiffSum xs ys := sqDiffSum_nonneg xs ys
        have hxy : (x - y) * (x - y) = 0 := by linarith
        have hrest : sqDiffSum xs ys = 0 := by linarith
        have : x = y := by
          have := mul_self_eq_zero.mp hxy
          linarith [sub_eq_zero.mp this]
        rw [this, (ih ys hlen2).mp hrest]
      · intro h
        injection h with h1 h2
        rw [h1, h2, sqDiffSum_self, sub_self, mul_zero, add_zero]

theorem vectorDist_nonneg (a b : List ℝ) : 0 ≤ vectorDist a b :=
  Real.sqrt_nonneg _

theorem vectorDist_self (a : List ℝ) : vectorDist a a = 0 := by
  unfold vectorDist
  rw [sqDiffSum_self, Real.sqrt_zero]

theorem vectorDist_comm (a b : List ℝ) : vectorDist a b = vectorDist b a := by
  unfold vectorDist
  rw [sqDiffSum_comm]

theorem vectorDist_eq_zero_iff (a b : List ℝ) (hlen : a.length = b.length) :
    vectorDist a b = 0 ↔ a = b := by
  unfold vectorDist
  rw [Real.sqrt_eq_zero (sqDiffSum_nonneg a b)]
  exact sqDiffSum_eq_zero_iff a b hlen

/-- classifyPosture in closed form on a present model. -/
theorem classifyPosture_eq (m : RModel) (v : List ℝ) :
    classifyPosture (some m) v =
      if vectorDist v m.goodCentroid + vectorDist v m.badCentroid < 0.0001 then some 0.5
      else some (vectorDist v m.badCentroid /
        (vectorDist v m.goodCentroid + vectorDist v m.badCentroid)) := rfl

theorem vectorDist_zero_one : vectorDist [(0 : ℝ)] [1] = 1 := by
  unfold vectorDist
  show Real.sqrt ((0 - 1) * (0 - 1) + 0) = 1
  norm_num

-- ══════════════ Claim C2: score formula and bounds ══════════════

/-- Claim C2: with a model present, the score is exactly 0.5 when the two
centroid distances sum below 1e-4, and otherwise equals
distBad / (distGood + distBad), which lies in [0, 1]. -/
theorem classify_score_formula (m : RModel) (v : List ℝ) :
    (vectorDist v m.goodCentroid + vectorDist v m.badCentroid < 0.0001 →
      classifyPosture (some m) v = some 0.5) ∧
    (0.0001 ≤ vectorDist v m.goodCentroid + vectorDist v m.badCentroid →
      classifyPosture (some m) v =
        some (vectorDist v m.badCentroid /
          (vectorDist v m.goodCentroid + vectorDist v m.badCentroid)) ∧
      0 ≤ vectorDist v m.badCentroid /
          (vectorDist v m.goodCentroid + vectorDist v m.badCentroid) ∧
      vectorDist v m.badCentroid /
          (vectorDist v m.goodCentroid + vectorDist v m.badCentroid) ≤ 1) := by
  constructor
  · intro hlt
    rw [classifyPosture_eq, if_pos hlt]
  · intro hge
    have hpos : 0 < vectorDist v m.goodCentroid + vectorDist v m.badCentroid :=
      lt_of_lt_of_le (by norm_num) hge
    refine ⟨by rw [classifyPosture_eq, if_neg (not_lt.mpr hge)], ?_, ?_⟩
    · exact div_nonneg (vectorDist_nonneg _ _) hpos.le
    · rw [div_le_one hpos]
      have := vectorDist_nonneg v m.goodCentroid
      linarith

theorem classify_score_formula_witness :
    classifyPosture (some { goodCentroid := [0], badCentroid := [0] }) [(0 : ℝ)]
        = some 0.5 ∧
    vectorDist [(0 : ℝ)] [0] / (vectorDist [(0 : ℝ)] [1] + vectorDist [(0 : ℝ)] [0]) ≤ 1 := by
  constructor
  · exact (classify_score_formula { goodCentroid := [0], badCentroid := [0] } [0]).1
      (by norm_num [vectorDist_self])
  · exact ((classify_score_formula { goodCentroid := [1], badCentroid := [0] } [0]).2
      (by norm_num [vectorDist_self, vectorDist_zero_one])).2.2

-- ══════════════ Claim C3: extreme scores ══════════════

/-- Claim C3 (amended): for a model whose centroids are at Euclidean
distance at least 1e-4 from each other (so the 0.5 degenerate branch is
not taken), and vectors of the model's dimension: the good centroid scores
exactly 1, the bad centroid scores exactly 0, and these inputs are the
only ones attaining 1 and 0 respectively. -/
theorem classify_extremes (m : RModel) (v : List ℝ)
    (hgb : m.goodCentroid.length = m.badCentroid.length)
    (hv : v.length = m.goodCentroid.length)
    (hsep : 0.0001 ≤ vectorDist m.goodCentroid m.badCentroid) :
    classifyPosture (some m) m.goodCentroid = some 1 ∧
    classifyPosture (some m) m.badCentroid = some 0 ∧
    (classifyPosture (some m) v = some 1 → v = m.goodCentroid) ∧
    (classifyPosture (some m) v = some 0 → v = m.badCentroid) := by
  have hDpos : 0 < vectorDist m.goodCentroid m.badCentroid :=
    lt_of_lt_of_le (by norm_num) hsep
  refine ⟨?_, ?_, ?_, ?_⟩
  · rw [classifyPosture_eq, vectorDist_self, zero_add, if_neg (not_lt.mpr hsep),
      div_self (ne_of_gt hDpos)]
  · rw [classifyPosture_eq, vectorDist_self, vectorDist_comm m.badCentroid m.goodCentroid,
      add_zero, if_neg (not_lt.mpr hsep), zero_div]
  · intro hs
    rw [classifyPosture_eq] at hs
    by_cases hb : vectorDist v m.goodCentroid + vectorDist v m.badCentroid < 0.0001
    · rw [if_pos hb] at hs
      injection hs with hs
      norm_num at hs
    · rw [if_neg hb] at hs
      injection hs with hs
      push_neg at hb
      have htot : 0 < vectorDist v m.goodCentroid + vectorDist v m.badCentroid :=
        lt_of_lt_of_le (by norm_num) hb
      have hdb : vectorDist v m.badCentroid
          = vectorDist v m.goodCentroid + vectorDist v m.badCentroid :=
        (div_eq_one_iff_eq (ne_of_gt htot)).mp hs
      have hdg : vectorDist v m.goodCentroid = 0 := by linarith
      exact (vectorDist_eq_zero_iff v m.goodCentroid hv).mp hdg
  · intro hs
    rw [classifyPosture_eq] at hs
    by_cases hb : vectorDist v m.goodCentroid + vectorDist v m.badCentroid < 0.0001
    · rw [if_pos hb] at hs
      injection hs with hs
      norm_num at hs
    · rw [if_neg hb] at hs
      injection hs with hs
      push_neg at hb
      have htot : 0 < vectorDist v m.goodCentroid + vectorDist v m.badCentroid :=
        lt_of_lt_of_le (by norm_num) hb
      have hdb : vectorDist v m.badCentroid = 0 :=
        by exact (div_eq_zero_iff.mp hs).elim id fun h0 => absurd h0 (ne_of_gt htot)
      exact (vectorDist_eq_zero_iff v m.badCentroid (hv.trans hgb)).mp hdb

theorem classify_extremes_witness :
    classifyPosture (some { goodCentroid := [(0 : ℝ)], badCentroid := [1] }) [(0 : ℝ)]
        = some 1 ∧
    classifyPosture (some { goodCentroid := [(0 : ℝ)], badCentroid := [1] }) [(1 : ℝ)]
        = some 0 := by
  have h := classify_extremes { goodCentroid := [(0 : ℝ)], badCentroid := [1] } [0]
    rfl rfl (by norm_num [vectorDist_zero_one])
  exact ⟨h.1, h.2.1⟩

/-- Six identical samples: a store whose two centroids coincide. -/
def degenerateSamples : List Sample :=
  [ { label := Label.good, angle := Angle.front, features := [0, 0, 0, 0], timestamp := 0 }
  , { label := Label.good, angle := Angle.front, features := [0, 0, 0, 0], timestamp := 1 }
  , { label := Label.good, angle := Angle.front, features := [0, 0, 0, 0], timestamp := 2 }
  , { label := Label.bad, angle := Angle.front, features := [0, 0, 0, 0], timestamp := 3 }
  , { label := Label.bad, angle := Angle.front, features := [0, 0, 0, 0], timestamp := 4 }
  , { label := Label.bad, angle := Angle.front, features := [0, 0, 0, 0], timestamp := 5 } ]

/-- Counterexample to claim C3 as stated: a model that retrainModel itself
produces (from 3 good and 3 bad identical samples) scores its own good
centroid 0.5, not 1, because the coincident-centroid branch takes over. -/
theorem classify_extremes_counterexample :
    retrainModel Angle.front degenerateSamples =
      some { goodCentroid := [0, 0, 0, 0], badCentroid := [0, 0, 0, 0] } ∧
    classifyPosture
        (some (castModel { goodCentroid := [0, 0, 0, 0], badCentroid := [0, 0, 0, 0] }))
        (castVec [0, 0, 0, 0]) = some 0.5 ∧
    (0.5 : ℝ) ≠ 1 := by
  refine ⟨?_, ?_, by norm_num⟩
  · have hg : goodSamplesFor Angle.front degenerateSamples =
        [ { label := Label.good, angle := Angle.front, features := [0, 0, 0, 0], timestamp := 0 }
        , { label := Label.good, angle := Angle.front, features := [0, 0, 0, 0], timestamp := 1 }
        , { label := Label.good, angle := Angle.front, features := [0, 0, 0, 0], timestamp := 2 } ] := rfl
    have hb : badSamplesFor Angle.front degenerateSamples =
        [ { label := Label.bad, angle := Angle.front, features := [0, 0, 0, 0], timestamp := 3 }
        , { label := Label.bad, angle := Angle.front, features := [0, 0, 0, 0], timestamp := 4 }
        , { label := Label.bad, angle := Angle.front, features := [0, 0, 0, 0], timestamp := 5 } ] := rfl
    unfold retrainModel
    rw [hg, hb]
    norm_num [centroidOf, sumFeatures, accumStep, numFeatures_eq_four, List.replicate]
  · norm_num [classifyPosture_eq, castModel, castVec, vectorDist_self]

-- ══════════════ Lemmas about the alert state machine ══════════════

theorem badRun_zero (delay cooldown lf0 : ℤ) (ts : ℕ → ℤ) :
    badRun delay cooldown lf0 ts 0
      = ({ badSince := some (ts 0), lastFired := lf0 }, false) := rfl

theorem badRun_succ (delay cooldown lf0 : ℤ) (ts : ℕ → ℤ) (k : ℕ) (t0 : ℤ)
    (h : (badRun delay cooldown lf0 ts k).1.badSince = some t0) (ht : t0 ≠ 0) :
    badRun delay cooldown lf0 ts (k + 1) =
      if delay ≤ ts (k + 1) - t0 ∧
          cooldown ≤ ts (k + 1) - (badRun delay cooldown lf0 ts k).1.lastFired then
        ({ (badRun delay cooldown lf0 ts k).1 with lastFired := ts (k + 1) }, true)
      else ((badRun delay cooldown lf0 ts k).1, false) := by
  show handleAlerts (some false) (ts (k + 1)) delay cooldown
      (badRun delay cooldown lf0 ts k).1 = _
  rcases hSt : (badRun delay cooldown lf0 ts k).1 with ⟨bs, lf⟩
  rw [hSt] at h
  simp only at h
  subst h
  have hb : badSinceUnset (some t0) = false := by
    simp [badSinceUnset, ht]
  simp only [handleAlerts, hb, Bool.false_eq_true, if_false, Option.getD_some]

theorem badRun_badSince (delay cooldown lf0 : ℤ) (ts : ℕ → ℤ) (ht0 : ts 0 ≠ 0) :
    ∀ k, (badRun delay cooldown lf0 ts k).1.badSince = some (ts 0) := by
  intro k
  induction k with
  | zero => rw [badRun_zero]
  | succ k ih =>
    rw [badRun_succ delay cooldown lf0 ts k (ts 0) ih ht0]
    split
    · exact ih
    · exact ih

theorem badRun_fired_zero (delay cooldown lf0 : ℤ) (ts : ℕ → ℤ) :
    (badRun delay cooldown lf0 ts 0).2 = false := by
  rw [badRun_zero]

theorem badRun_lastFired_zero (delay cooldown lf0 : ℤ) (ts : ℕ → ℤ) :
    (badRun delay cooldown lf0 ts 0).1.lastFired = lf0 := by
  rw [badRun_zero]

theorem badRun_fired_succ_iff (delay cooldown lf0 : ℤ) (ts : ℕ → ℤ)
    (ht0 : ts 0 ≠ 0) (k : ℕ) :
    (badRun delay cooldown lf0 ts (k + 1)).2 = true ↔
      (delay ≤ ts (k + 1) - ts 0 ∧
        cooldown ≤ ts (k + 1) - (badRun delay cooldown lf0 ts k).1.lastFired) := by
  rw [badRun_succ delay cooldown lf0 ts k (ts 0)
    (badRun_badSince delay cooldown lf0 ts ht0 k) ht0]
  split
  · rename_i h; simpa using h
  · rename_i h; simpa using h

theorem badRun_lastFired_succ (delay cooldown lf0 : ℤ) (ts : ℕ → ℤ)
    (ht0 : ts 0 ≠ 0) (k : ℕ) :
    (badRun delay cooldown lf0 ts (k + 1)).1.lastFired =
      if delay ≤ ts (k + 1) - ts 0 ∧
          cooldown ≤ ts (k + 1) - (badRun delay cooldown lf0 ts k).1.lastFired then
        ts (k + 1)
      else (badRun delay cooldown lf0 ts k).1.lastFired := by
  rw [badRun_succ delay cooldown lf0 ts k (ts 0)
    (badRun_badSince delay cooldown lf0 ts ht0 k) ht0]
  split <;> rfl

theorem badRun_lastFired_le (delay cooldown lf0 : ℤ) (ts : ℕ → ℤ)
    (ht0 : ts 0 ≠ 0) (hts : ∀ j, ts j < ts (j + 1)) (hl : lf0 ≤ ts 0) :
    ∀ k, (badRun delay cooldown lf0 ts k).1.lastFired ≤ ts k := by
  intro k
  induction k with
  | zero => rw [badRun_lastFired_zero]; exact hl
  | succ k ih =>
    rw [badRun_lastFired_succ delay cooldown lf0 ts ht0 k]
    split
    · exact le_refl _
    · exact le_trans ih (hts k).le

theorem badRun_lastFired_mono (delay cooldown lf0 : ℤ) (ts : ℕ → ℤ)
    (ht0 : ts 0 ≠ 0) (hts : ∀ j, ts j < ts (j + 1)) (hl : lf0 ≤ ts 0) :
    ∀ j k, j ≤ k → (badRun delay cooldown lf0 ts j).1.lastFired
      ≤ (badRun delay cooldown lf0 ts k).1.lastFired := by
  have step : ∀ k, (badRun delay cooldown lf0 ts k).1.lastFired
      ≤ (badRun delay cooldown lf0 ts (k + 1)).1.lastFired := by
    intro k
    rw [badRun_lastFired_succ delay cooldown lf0 ts ht0 k]
    split
    · exact le_trans (badRun_lastFired_le delay cooldown lf0 ts ht0 hts hl k) (hts k).le
    · exact le_refl _
  intro j k hjk
  exact monotone_nat_of_le_succ step hjk

theorem badRun_fired_lastFired (delay cooldown lf0 : ℤ) (ts : ℕ → ℤ)
    (ht0 : ts 0 ≠ 0) (k : ℕ)
    (hf : (badRun delay cooldown lf0 ts (k + 1)).2 = true) :
    (badRun delay cooldown lf0 ts (k + 1)).1.lastFired = ts (k + 1) := by
  rw [badRun_lastFired_succ delay cooldown lf0 ts ht0 k, if_pos]
  exact (badRun_fired_succ_iff delay cooldown lf0 ts ht0 k).mp hf

theorem badRun_noFire_lastFired (delay cooldown lf0 : ℤ) (ts : ℕ → ℤ)
    (ht0 : ts 0 ≠ 0) :
    ∀ k, (∀ j, j ≤ k → (badRun delay cooldown lf0 ts j).2 = false) →
      (badRun delay cooldown lf0 ts k).1.lastFired = lf0 := by
  intro k
  induction k with
  | zero => intro _; rw [badRun_lastFired_zero]
  | succ k ih =>
    intro h
    have hk1 : (badRun delay cooldown lf0 ts (k + 1)).2 = false := h (k + 1) (le_refl _)
    have hcond : ¬(delay ≤ ts (k + 1) - ts 0 ∧
        cooldown ≤ ts (k + 1) - (badRun delay cooldown lf0 ts k).1.lastFired) := by
      intro hcond
      have := (badRun_fired_succ_iff delay cooldown lf0 ts ht0 k).mpr hcond
      rw [this] at hk1
      exact Bool.noConfusion hk1
    rw [badRun_lastFired_succ delay cooldown lf0 ts ht0 k, if_neg hcond]
    exact ih fun j hj => h j (Nat.le_succ_of_le hj)

-- ══════════════ Claim C4: the hysteresis run ══════════════

/-- Claim C4 (amended): for a run of handleAlerts on consecutive
bad-classified frames at strictly increasing positive timestamps ts, with
positive delay, nonnegative cooldown, and no alert within the cooldown
window before the episode (lastFired + cooldown ≤ ts 0):
(1) badSince stays pinned to the episode start ts 0 on every frame — in
particular firing never resets it;
(2) the first frame whose time has advanced at least delay past ts 0 fires,
and no earlier frame fires;
(3) any two distinct fires are separated so that the second happens no
earlier than ts 0 + delay + cooldown;
(4) a later frame fires exactly when both now - badSince ≥ delay and
now - lastFired ≥ cooldown hold. -/
theorem alert_hysteresis_run (delay cooldown lf0 : ℤ) (ts : ℕ → ℤ)
    (hts : ∀ k, ts k < ts (k + 1)) (ht0 : 0 < ts 0) (hd : 0 < delay)
    (hc : 0 ≤ cooldown) (hlf : lf0 + cooldown ≤ ts 0) :
    (∀ k, (badRun delay cooldown lf0 ts k).1.badSince = some (ts 0)) ∧
    (∀ k, delay ≤ ts k - ts 0 → (∀ j, j < k → ts j - ts 0 < delay) →
      ((badRun delay cooldown lf0 ts k).2 = true ∧
        ∀ j, j < k → (badRun delay cooldown lf0 ts j).2 = false)) ∧
    (∀ j k, j < k → (badRun delay cooldown lf0 ts j).2 = true →
      (badRun delay cooldown lf0 ts k).2 = true → ts 0 + delay + cooldown ≤ ts k) ∧
    (∀ k, (badRun delay cooldown lf0 ts (k + 1)).2 = true ↔
      (delay ≤ ts (k + 1) - ts 0 ∧
        cooldown ≤ ts (k + 1) - (badRun delay cooldown lf0 ts k).1.lastFired)) := by
  have ht0ne : ts 0 ≠ 0 := ne_of_gt ht0
  have hmono : ∀ j k, j ≤ k → ts j ≤ ts k := by
    intro j k hjk
    exact monotone_nat_of_le_succ (fun n => (hts n).le) hjk
  refine ⟨badRun_badSince delay cooldown lf0 ts ht0ne, ?_, ?_, ?_⟩
  · intro k hk hmin
    obtain ⟨m, rfl⟩ : ∃ m, k = m + 1 := by
      cases k with
      | zero => exfalso; linarith
      | succ m => exact ⟨m, rfl⟩
    have hnofire : ∀ j, j < m + 1 → (badRun delay cooldown lf0 ts j).2 = false := by
      intro j hj
      cases j with
      | zero => exact badRun_fired_zero delay cooldown lf0 ts
      | succ i =>
        rcases Bool.eq_false_or_eq_true (badRun delay cooldown lf0 ts (i + 1)).2 with h | h
        · exfalso
          have hch := (badRun_fired_succ_iff delay cooldown lf0 ts ht0ne i).mp h
          have h2 := hmin (i + 1) hj
          linarith [hch.1]
        · exact h
    refine ⟨?_, hnofire⟩
    have hlfm : (badRun delay cooldown lf0 ts m).1.lastFired = lf0 :=
      badRun_noFire_lastFired delay cooldown lf0 ts ht0ne m
        fun j hj => hnofire j (Nat.lt_succ_of_le hj)
    rw [badRun_fired_succ_iff delay cooldown lf0 ts ht0ne m, hlfm]
    have h0k : ts 0 ≤ ts (m + 1) := hmono 0 (m + 1) (Nat.zero_le _)
    exact ⟨hk, by linarith⟩
  · intro j k hjk hfj hfk
    obtain ⟨i, rfl⟩ : ∃ i, j = i + 1 := by
      cases j with
      | zero =>
        rw [badRun_fired_zero delay cooldown lf0 ts] at hfj
        exact Bool.noConfusion hfj
      | succ i => exact ⟨i, rfl⟩
    obtain ⟨m, rfl⟩ : ∃ m, k = m + 1 := by
      cases k with
      | zero => exact absurd hjk (Nat.not_lt_zero _)
      | succ m => exact ⟨m, rfl⟩
    have hchk := (badRun_fired_succ_iff delay cooldown lf0 ts ht0ne m).mp hfk
    have hchj := (badRun_fired_succ_iff delay cooldown lf0 ts ht0ne i).mp hfj
    have hlfj : (badRun delay cooldown lf0 ts (i + 1)).1.lastFired = ts (i + 1) :=
      badRun_fired_lastFired delay cooldown lf0 ts ht0ne i hfj
    have hl : lf0 ≤ ts 0 := by linarith
    have hmonolf := badRun_lastFired_mono delay cooldown lf0 ts ht0ne hts hl
      (i + 1) m (Nat.lt_succ_iff.mp hjk)
    rw [hlfj] at hmonolf
    linarith [hchk.2, hchj.1]
  · exact badRun_fired_succ_iff delay cooldown lf0 ts ht0ne

/-- Frame times 0, 5000, 10000, ...: the claim's own scenario, taken
literally with the episode starting at absolute time 0. -/
def cexTimesA : ℕ → ℤ := fun k => 5000 * k

/-- Frame times 1000, 2000, 3000, ...: positive timestamps. -/
def cexTimesB : ℕ → ℤ := fun k => 1000 + 1000 * k

/-- Counterexample to claim C4 as stated.  Run A is the claim's example
(delay 5 s, cooldown 30 s, bad from t = 0, last fire a full cooldown in
the past): frame 1 at t = 5000 satisfies t ≥ delay, yet handleAlerts does
not fire — badSince = 0 is JavaScript-falsy, so the t = 0 episode start is
lost and the timer restarts.  Run B: with delay = 0 (and positive
timestamps), the very first bad frame satisfies t - t0 ≥ delay but only
arms badSince and never fires. -/
theorem alert_run_counterexample :
    ((badRun 5000 30000 (-30000) cexTimesA 1).2 = false ∧
      5000 ≤ cexTimesA 1 - cexTimesA 0 ∧ cexTimesA 0 - (-30000) ≥ 30000) ∧
    ((badRun 0 0 0 cexTimesB 0).2 = false ∧
      (0 : ℤ) ≤ cexTimesB 0 - cexTimesB 0) := by
  refine ⟨⟨?_, by norm_num [cexTimesA], by norm_num [cexTimesA]⟩,
    ⟨?_, by norm_num⟩⟩
  · decide
  · decide

theorem alert_hysteresis_run_witness :
    (badRun 2000 3000 (-2000) cexTimesB 2).2 = true ∧
    (badRun 2000 3000 (-2000) cexTimesB 1).2 = false := by
  have hts : ∀ k, cexTimesB k < cexTimesB (k + 1) := by
    intro k
    simp only [cexTimesB]
    omega
  have h := alert_hysteresis_run 2000 3000 (-2000) cexTimesB hts
    (by norm_num [cexTimesB]) (by norm_num) (by norm_num) (by norm_num [cexTimesB])
  have hmin : ∀ j, j < 2 → cexTimesB j - cexTimesB 0 < 2000 := by
    intro j hj
    interval_cases j <;> norm_num [cexTimesB]
  have hf := h.2.1 2 (by norm_num [cexTimesB]) hmin
  exact ⟨hf.1, hf.2 1 (by norm_num)⟩

-- ══════════════ Claim C5: title flash vs the auto-hide timer ══════════════

/-- The idle dispatcher UI state. -/
def idleUi : UiState :=
  { overlayVisible := false, flashActive := false, pendingHides := [] }

/-- Counterexample to claim C5 as stated: fire at t = 0 with no
good-posture frame afterwards; when the scheduled 5 s auto-dismiss runs at
t = 5000 it calls hideAlert, which stops the title flash along with the
overlay — the flash does not keep running until the next clear event. -/
theorem titleFlash_counterexample :
    (autoHideTick 5000 (fireAlert 0 idleUi)).flashActive = false ∧
    (autoHideTick 5000 (fireAlert 0 idleUi)).overlayVisible = false := by
  decide

/-- Claim C5 (amended): a fire event shows the overlay, starts the title
flash and schedules an auto-dismiss at now + 5000, cancelling none of the
deadlines already pending from earlier fires; the flash survives any
moment at which no pending timeout expires, but the expiry of ANY pending
timeout — possibly one scheduled by an earlier fire, before the latest
fire's own deadline — performs a full hideAlert, stopping the title flash
together with the overlay, exactly as a good-posture clear event does;
any subsequent fire restarts the flash. -/
theorem titleFlash_until_hide (u : UiState) (t tp : ℤ) :
    (fireAlert t u).flashActive = true ∧
    (fireAlert t u).overlayVisible = true ∧
    t + 5000 ∈ (fireAlert t u).pendingHides ∧
    (∀ d, d ∈ u.pendingHides → d ∈ (fireAlert t u).pendingHides) ∧
    (tp ∉ (fireAlert t u).pendingHides →
      autoHideTick tp (fireAlert t u) = fireAlert t u) ∧
    (tp ∈ (fireAlert t u).pendingHides →
      (autoHideTick tp (fireAlert t u)).flashActive = false ∧
      (autoHideTick tp (fireAlert t u)).overlayVisible = false) ∧
    (hideAlert (fireAlert t u)).flashActive = false ∧
    ∀ t2 u2, (fireAlert t2 u2).flashActive = true := by
  have hhide : ∀ w : UiState,
      (hideAlert w).flashActive = false ∧ (hideAlert w).overlayVisible = false := by
    intro w
    by_cases hw : w.flashActive <;> simp [hideAlert, stopTitleFlash, hw]
  have hfire : ∀ (t2 : ℤ) (u2 : UiState),
      (fireAlert t2 u2).flashActive = true ∧
      (fireAlert t2 u2).overlayVisible = true ∧
      (fireAlert t2 u2).pendingHides = u2.pendingHides ++ [t2 + 5000] := by
    intro t2 u2
    by_cases hf : u2.flashActive <;> simp [fireAlert, startTitleFlash, hf]
  refine ⟨(hfire t u).1, (hfire t u).2.1, ?_, ?_, ?_, ?_, (hhide _).1,
    fun t2 u2 => (hfire t2 u2).1⟩
  · rw [(hfire t u).2.2]
    simp
  · intro d hd
    rw [(hfire t u).2.2]
    exact List.mem_append_left _ hd
  · intro hnp
    simp only [autoHideTick]
    rw [if_neg hnp]
  · intro hp
    simp only [autoHideTick]
    rw [if_pos hp]
    exact hhide _

theorem titleFlash_until_hide_witness :
    (autoHideTick 5000 (fireAlert 3000 (fireAlert 0 idleUi))).flashActive = false ∧
    (fireAlert 3000 (fireAlert 0 idleUi)).flashActive = true ∧
    autoHideTick 7 (fireAlert 3000 (fireAlert 0 idleUi))
      = fireAlert 3000 (fireAlert 0 idleUi) :=
  ⟨((titleFlash_until_hide (fireAlert 0 idleUi) 3000 5000).2.2.2.2.2.1 (by decide)).1,
   (titleFlash_until_hide (fireAlert 0 idleUi) 3000 5000).1,
   (titleFlash_until_hide (fireAlert 0 idleUi) 3000 7).2.2.2.2.1 (by decide)⟩

-- ══════════════ Claim C9: low-visibility guards ══════════════

/-- Claim C9: every metric returns exactly 0 (rather than failing or
producing NaN) when its guard detects a contributing keypoint below the
kind-specific visibility threshold. -/
theorem lowVisibility_returns_zero (norm world : Frame) :
    ((norm 11).visibility < 0.4 ∨ (norm 12).visibility < 0.4 →
      shoulderTilt norm world = 0) ∧
    ((norm 0).visibility < 0.4 ∨ (norm 11).visibility < 0.4 ∨
        (norm 12).visibility < 0.4 →
      headForwardZ norm world = 0) ∧
    ((norm 0).visibility < 0.4 ∨ (norm 11).visibility < 0.4 ∨
        (norm 12).visibility < 0.4 →
      lateralLean norm world = 0) ∧
    ((norm 0).visibility < 0.4 ∨ (norm 11).visibility < 0.4 ∨
        (norm 12).visibility < 0.4 →
      headDrop norm world = 0) ∧
    ((norm 11).visibility < 0.3 ∨ (norm 12).visibility < 0.3 →
      spineAngle norm world = 0) ∧
    ((norm 0).visibility < 0.4 ∨ (norm 11).visibility < 0.3 ∨
        (norm 12).visibility < 0.3 →
      neckAngle norm world = 0) := by
  refine ⟨?_, ?_, ?_, ?_, ?_, ?_⟩ <;> intro h
  · unfold shoulderTilt; rw [if_pos h]
  · unfold headForwardZ; rw [if_pos h]
  · unfold lateralLean; rw [if_pos h]
  · unfold headDrop; rw [if_pos h]
  · unfold spineAngle; rw [if_pos h]
  · unfold neckAngle; rw [if_pos h]

/-- A frame whose keypoints all have zero visibility. -/
def zeroFrame : Frame := fun _ => { x := 0, y := 0, z := 0, visibility := 0 }

theorem lowVisibility_returns_zero_witness :
    shoulderTilt zeroFrame zeroFrame = 0 ∧
    headForwardZ zeroFrame zeroFrame = 0 ∧
    lateralLean zeroFrame zeroFrame = 0 ∧
    headDrop zeroFrame zeroFrame = 0 ∧
    spineAngle zeroFrame zeroFrame = 0 ∧
    neckAngle zeroFrame zeroFrame = 0 := by
  have h := lowVisibility_returns_zero zeroFrame zeroFrame
  exact ⟨h.1 (Or.inl (by norm_num [zeroFrame])),
    h.2.1 (Or.inl (by norm_num [zeroFrame])),
    h.2.2.1 (Or.inl (by norm_num [zeroFrame])),
    h.2.2.2.1 (Or.inl (by norm_num [zeroFrame])),
    h.2.2.2.2.1 (Or.inl (by norm_num [zeroFrame])),
    h.2.2.2.2.2 (Or.inl (by norm_num [zeroFrame]))⟩

end PostureCheck
